import Mathlib

/-!
Verification of the zep_wrapper embedding boundary (zep_wrapper.cpp / wrapper.h).

The wrapper is a C shell around the external Zep editor engine.  The shell's
own state is a `ZepEditorWrapper` struct holding an owned editor and a cached
pointer to the current buffer.  C byte strings are modelled as `List Nat`
(one entry per byte), pointers that may be null as `Option`, and the caught
internal-engine exceptions as explicit failure oracles (a `Bool` flag or an
`Option`-returning delivery function).  Engine calls that are not part of this
repository (Zep internals) are modelled from the spec and say so in their doc
comments.
-/

namespace ZepWrapper

/-- Byte strings crossing the C boundary (the contents of a C char buffer),
one natural number per byte. -/
abbrev Bytes := List Nat

/-- The engine Buffer as visible at the boundary: a name and byte content. -/
structure ZepBuffer where
  name : Bytes
  content : Bytes
deriving DecidableEq

/-- The engine Window as visible at the boundary: the buffer it targets
(`window->GetBuffer()`, modelled as an index into the editor's buffer list)
and the cursor byte offset (`window->GetBufferCursor()`). -/
structure ZepWindow where
  bufferId : Nat
  cursor : Nat
deriving DecidableEq

/-- Identity name of the Vim mode variant, `ZepMode_Vim::StaticName()`. -/
def vimStaticName : String := "Vim"

/-- Identity name of the Standard mode variant, `ZepMode_Standard::StaticName()`. -/
def standardStaticName : String := "Standard"

/-- The engine Editor as visible at the boundary: root path, registered global
modes (by name), the active global mode, the owned buffers, the active window
and the display region. -/
structure ZepEditor where
  rootPath : Bytes
  registeredModes : List String
  globalMode : String
  buffers : List ZepBuffer
  activeWindow : Option ZepWindow
  region : (Rat × Rat) × (Rat × Rat)
deriving DecidableEq

/-- The shell's per-handle state (`struct ZepEditorWrapper`): the owned editor
and the cached current-buffer pointer (`ZepBuffer* current_buffer`, null until
`zep_init_with_text`). -/
structure ZepEditorWrapper where
  editor : ZepEditor
  current_buffer : Option Nat
deriving DecidableEq

/-- Modelled from the spec: the engine call `ZepBuffer::GetMode` is not under
src; per the spec a key event is dispatched to the current Buffer's active
Mode, which is the editor-wide global mode, resolvable when that name is among
the registered modes. -/
def ZepEditor.getMode (e : ZepEditor) : Option String :=
  if e.globalMode ∈ e.registeredModes then some e.globalMode else none

/-- Modelled from the spec: the Buffer's derived line-start offset table
(offset 0 is always a line start; the offset just past each newline byte 10
starts a further line).  This helper collects the starts contributed by the
content, with `i` the offset of the first listed byte. -/
def lineStartsAux : Bytes → Nat → List Nat
  | [], _ => []
  | b :: rest, i =>
    if b = 10 then (i + 1) :: lineStartsAux rest (i + 1) else lineStartsAux rest (i + 1)

/-- Modelled from the spec: the full line-start table of a content. -/
def lineStarts (content : Bytes) : List Nat :=
  0 :: lineStartsAux content 0

/-- Modelled from the spec: `ZepBuffer::GetLineFromOffset` — the index `i`
with `lineStart[i] ≤ o < lineStart[i+1]`, the last line extending to the
content length inclusive. -/
def lineFromOffset : List Nat → Nat → Nat
  | [], _ => 0
  | [_], _ => 0
  | _ :: s2 :: rest, o => if o < s2 then 0 else lineFromOffset (s2 :: rest) o + 1

/-- Modelled from the spec: `ZepBuffer::GetLinePos(o, LineLocation::LineBegin)`
= `lineStart[lineFromOffset(o)]`. -/
def linePosBegin (starts : List Nat) (o : Nat) : Nat :=
  starts.getD (lineFromOffset starts o) 0

/-- Internal key representation after the wrapper's special-key mapping:
either one of the `ExtKeys` arrow sentinels or a literal character code. -/
inductive ZepKey where
  | up
  | down
  | left
  | right
  | char (code : Nat)
deriving DecidableEq

/-- Internal modifier representation after the wrapper's bit translation
(the `ModifierKey` flags that were or-ed into `zep_modifiers`). -/
structure ZepMods where
  ctrl : Bool
  alt : Bool
  shift : Bool
deriving DecidableEq

/-- Modifier translation of `zep_handle_key`: bit 0 is Ctrl, bit 1 is Alt,
bit 2 is Shift; other bits are never read. -/
def translateModifiers (modifiers : Nat) : ZepMods :=
  { ctrl := modifiers.testBit 0
    alt := modifiers.testBit 1
    shift := modifiers.testBit 2 }

/-- Special-key mapping of `zep_handle_key`: 1000..1003 map to the arrow
sentinels, every other key value passes through as a literal code. -/
def translateKey (key : Nat) : ZepKey :=
  if key = 1000 then ZepKey.up
  else if key = 1001 then ZepKey.down
  else if key = 1002 then ZepKey.left
  else if key = 1003 then ZepKey.right
  else ZepKey.char key

/-- The full key-event translation performed by `zep_handle_key` before
dispatch: a pure function of the raw (key, modifiers) pair. -/
def translateKeyEvent (key modifiers : Nat) : ZepKey × ZepMods :=
  (translateKey key, translateModifiers modifiers)

/-- Embedding of `zep_create_editor`.  `root_path ? root_path : "."` means the
"." default (byte 46) applies exactly when the pointer is null; construction
failure (the caught exception) is an explicit oracle and yields null. -/
def zep_create_editor (root_path : Option Bytes) (constructionFails : Bool) :
    Option ZepEditorWrapper :=
  if constructionFails then none
  else
    some
      { editor :=
          { rootPath := root_path.getD [46]
            registeredModes := [vimStaticName, standardStaticName]
            globalMode := vimStaticName
            buffers := []
            activeWindow := none
            region := ((0, 0), (0, 0)) }
        current_buffer := none }

/-- Modelled from the spec: the engine call `ZepEditor::InitWithText` is not
under src; per the spec it creates a Buffer with the given name and text and
makes it the target of the editor's active Window (cursor at offset 0),
returning the new buffer.  The returned `Nat` is the new buffer's index. -/
def editorInitWithText (e : ZepEditor) (n t : Bytes) : ZepEditor × Nat :=
  ({ e with
      buffers := e.buffers ++ [{ name := n, content := t }]
      activeWindow := some { bufferId := e.buffers.length, cursor := 0 } },
   e.buffers.length)

/-- Embedding of `zep_init_with_text`: no-op when the handle, name or text
pointer is null; an engine exception (the `engineFails` oracle) is caught and
leaves the wrapper unchanged; otherwise the cached current buffer is set to
the buffer returned by the engine. -/
def zep_init_with_text (editor_ptr : Option ZepEditorWrapper) (name text : Option Bytes)
    (engineFails : Bool) : Option ZepEditorWrapper :=
  match editor_ptr, name, text with
  | none, _, _ => none
  | some w, none, _ => some w
  | some w, _, none => some w
  | some w, some n, some t =>
    if engineFails then some w
    else
      let r := editorInitWithText w.editor n t
      some { editor := r.1, current_buffer := some r.2 }

/-- Embedding of `zep_get_text`: the returned pair is (return value, bytes
written into the caller's buffer).  The branch where the cached buffer index
does not resolve is dead: the cached pointer always references a live
buffer. -/
def zep_get_text (editor_ptr : Option ZepEditorWrapper) (outBufPresent : Bool)
    (buffer_size : Nat) : Nat × Bytes :=
  match editor_ptr with
  | none => (0, [])
  | some w =>
    if outBufPresent = false ∨ buffer_size = 0 then (0, [])
    else
      match w.current_buffer with
      | none => (0, [])
      | some id =>
        match w.editor.buffers[id]? with
        | none => (0, [])
        | some buf =>
          let copy_size := min buf.content.length (buffer_size - 1)
          (copy_size, buf.content.take copy_size ++ [0])

/-- Embedding of `zep_set_vim_mode`: `SetGlobalMode(ZepMode_Vim::StaticName())`
on a present handle, no-op on a null handle. -/
def zep_set_vim_mode (editor_ptr : Option ZepEditorWrapper) : Option ZepEditorWrapper :=
  match editor_ptr with
  | none => none
  | some w => some { w with editor := { w.editor with globalMode := vimStaticName } }

/-- Semantics of the engine call `ZepMode::AddKeyPress`, left abstract: an
arbitrary transformation of the editor state, `none` modelling a thrown
exception.  The mode has no access to the wrapper struct itself. -/
abbrev KeyDeliver := ZepKey → ZepMods → ZepEditor → Option ZepEditor

/-- Embedding of `zep_handle_key`: the returned pair is (return value,
post-state of the handle).  False on a null handle, a null cached buffer, an
unresolvable mode, or a caught exception from `AddKeyPress`; true once the
translated event has been delivered. -/
def zep_handle_key (addKeyPress : KeyDeliver) (editor_ptr : Option ZepEditorWrapper)
    (key modifiers : Nat) : Bool × Option ZepEditorWrapper :=
  match editor_ptr with
  | none => (false, none)
  | some w =>
    match w.current_buffer with
    | none => (false, some w)
    | some _ =>
      match w.editor.getMode with
      | none => (false, some w)
      | some _ =>
        match addKeyPress (translateKey key) (translateModifiers modifiers) w.editor with
        | none => (false, some w)
        | some e2 => (true, some { w with editor := e2 })

/-- Embedding of `zep_display`: sets the display region to
`[x,y]–[x+width,y+height]` and invokes the external display adapter, which is
presentation-only.  Coordinates are modelled as rationals. -/
def zep_display (editor_ptr : Option ZepEditorWrapper) (x y width height : Rat) :
    Option ZepEditorWrapper :=
  match editor_ptr with
  | none => none
  | some w =>
    some { w with editor := { w.editor with region := ((x, y), (x + width, y + height)) } }

/-- Embedding of `zep_get_text_length`: the current buffer's true content
length, 0 when the handle or cached buffer is null.  The unresolvable-index
branch is dead as in `zep_get_text`. -/
def zep_get_text_length (editor_ptr : Option ZepEditorWrapper) : Nat :=
  match editor_ptr with
  | none => 0
  | some w =>
    match w.current_buffer with
    | none => 0
    | some id =>
      match w.editor.buffers[id]? with
      | none => 0
      | some buf => buf.content.length

/-- Embedding of `zep_is_vim_mode`: compares the active global mode's name
with the Vim variant's identity. -/
def zep_is_vim_mode (editor_ptr : Option ZepEditorWrapper) : Bool :=
  match editor_ptr with
  | none => false
  | some w => w.editor.globalMode == vimStaticName

/-- Embedding of `zep_get_cursor_position`.  The two `Bool`s say whether the
`line` and `column` out-pointers are non-null; `line0`/`column0` are the
values the pointed-to cells held before the call, and the result is the
values they hold after it.  The unresolvable-index branch is dead as in
`zep_get_text`. -/
def zep_get_cursor_position (editor_ptr : Option ZepEditorWrapper)
    (linePtr columnPtr : Bool) (line0 column0 : Int) : Int × Int :=
  match editor_ptr, linePtr, columnPtr with
  | none, _, _ => (line0, column0)
  | some _, false, _ => (line0, column0)
  | some _, _, false => (line0, column0)
  | some w, true, true =>
    match w.current_buffer with
    | none => (0, 0)
    | some id =>
      match w.editor.activeWindow with
      | none => (0, 0)
      | some window =>
        if window.bufferId = id then
          match w.editor.buffers[id]? with
          | none => (0, 0)
          | some buf =>
            ((lineFromOffset (lineStarts buf.content) window.cursor : Int),
             (window.cursor : Int) - (linePosBegin (lineStarts buf.content) window.cursor : Int))
        else (0, 0)

/-- One boundary call other than create/destroy/initWithText, with its
arguments; used to state which calls can touch the cached current buffer. -/
inductive BoundaryCall where
  | getText (outBufPresent : Bool) (capacity : Nat)
  | getTextLength
  | setVimMode
  | isVimMode
  | handleKey (addKeyPress : KeyDeliver) (key modifiers : Nat)
  | display (x y width height : Rat)
  | getCursorPosition (linePtr columnPtr : Bool) (line0 column0 : Int)

/-- State transition of each boundary call of `BoundaryCall`: the reading
calls (`zep_get_text`, `zep_get_text_length`, `zep_is_vim_mode`,
`zep_get_cursor_position`) write only the caller's storage and leave the
handle state as it was; the others apply their embeddings. -/
def boundaryStep : BoundaryCall → Option ZepEditorWrapper → Option ZepEditorWrapper
  | BoundaryCall.getText _ _, w => w
  | BoundaryCall.getTextLength, w => w
  | BoundaryCall.setVimMode, w => zep_set_vim_mode w
  | BoundaryCall.isVimMode, w => w
  | BoundaryCall.handleKey d k m, w => (zep_handle_key d w k m).2
  | BoundaryCall.display x y wd ht, w => zep_display w x y wd ht
  | BoundaryCall.getCursorPosition _ _ _ _, w => w

/-- Every line start contributed by the content part starting at offset `i`
lies strictly beyond `i`. -/
theorem lineStartsAux_pos : ∀ (c : Bytes) (i x : Nat), x ∈ lineStartsAux c i → i < x
  | [], _, x, h => by simp [lineStartsAux] at h
  | b :: rest, i, x, h => by
    by_cases hb : b = 10
    · simp only [lineStartsAux, if_pos hb, List.mem_cons] at h
      rcases h with h | h
      · omega
      · have hx := lineStartsAux_pos rest (i + 1) x h
        omega
    · simp only [lineStartsAux, if_neg hb] at h
      have hx := lineStartsAux_pos rest (i + 1) x h
      omega

/-- The start of the line found by `lineFromOffset` is at or before the
offset, provided the head of the table is. -/
theorem lineFromOffset_head_le : ∀ (a : Nat) (rest : List Nat) (o : Nat), a ≤ o →
    (a :: rest).getD (lineFromOffset (a :: rest) o) 0 ≤ o
  | _, [], _, ha => by simpa [lineFromOffset] using ha
  | a, s2 :: rest, o, ha => by
    by_cases hc : o < s2
    · simpa [lineFromOffset, hc] using ha
    · have ih := lineFromOffset_head_le s2 rest o (by omega)
      simpa [lineFromOffset, hc, List.getD_cons_succ] using ih

/-- The offset lies strictly before the next line start, whenever a next line
start exists. -/
theorem lineFromOffset_next_gt : ∀ (starts : List Nat) (o : Nat),
    lineFromOffset starts o + 1 < starts.length →
    o < starts.getD (lineFromOffset starts o + 1) 0
  | [], o, h => by simp [lineFromOffset] at h
  | [_], o, h => by simp [lineFromOffset] at h
  | _ :: s2 :: rest, o, h => by
    by_cases hc : o < s2
    · simp [lineFromOffset, hc]
    · have hlen : lineFromOffset (s2 :: rest) o + 1 < (s2 :: rest).length := by
        simp only [lineFromOffset, if_neg hc, List.length_cons] at h ⊢
        omega
      have ih := lineFromOffset_next_gt (s2 :: rest) o hlen
      simpa [lineFromOffset, hc, List.getD_cons_succ] using ih

/-- The line index found by `lineFromOffset` is a valid index into a
non-empty table. -/
theorem lineFromOffset_lt_length : ∀ (a : Nat) (rest : List Nat) (o : Nat),
    lineFromOffset (a :: rest) o < (a :: rest).length
  | _, [], _ => by simp [lineFromOffset]
  | _, s2 :: rest, o => by
    by_cases hc : o < s2
    · simp [lineFromOffset, hc]
    · have ih := lineFromOffset_lt_length s2 rest o
      simp only [lineFromOffset, if_neg hc, List.length_cons] at ih ⊢
      omega

/-- Offset 0 always resolves to line 0. -/
theorem lineFromOffset_zero (c : Bytes) : lineFromOffset (lineStarts c) 0 = 0 := by
  unfold lineStarts
  cases h : lineStartsAux c 0 with
  | nil => simp [lineFromOffset]
  | cons s2 r =>
    have hpos : 0 < s2 := lineStartsAux_pos c 0 s2 (by rw [h]; exact List.mem_cons_self _ _)
    simp [lineFromOffset, hpos]

/-- The start of the line holding offset 0 is offset 0. -/
theorem linePosBegin_zero (c : Bytes) : linePosBegin (lineStarts c) 0 = 0 := by
  unfold linePosBegin
  rw [lineFromOffset_zero]
  simp [lineStarts]

/-- C6: create constructs an Editor rooted at root_path, registers both the
Vim and Standard mode variants, activates Vim as the global mode, leaves the
cached current buffer null, and returns null rather than propagating any
fault on construction failure; the current-working-context default "." is
substituted exactly when root_path is absent (a null pointer), and an empty
root_path is passed through unchanged. -/
theorem zep_create_editor_contract :
    (∀ root, zep_create_editor root true = none) ∧
    (∀ root, (zep_create_editor (some root) false).map (fun w => w.editor.rootPath) =
      some root) ∧
    ((zep_create_editor none false).map (fun w => w.editor.rootPath) = some [46]) ∧
    (∀ root, (zep_create_editor root false).map (fun w => w.editor.registeredModes) =
      some [vimStaticName, standardStaticName]) ∧
    (∀ root, (zep_create_editor root false).map (fun w => w.editor.globalMode) =
      some vimStaticName) ∧
    (∀ root, (zep_create_editor root false).map (fun w => w.current_buffer) = some none) :=
  ⟨fun _ => rfl, fun _ => rfl, rfl, fun _ => rfl, fun _ => rfl, fun _ => rfl⟩

/-- C6 counterexample: an empty but non-null root_path is not replaced by the
current working context "." (byte 46) — the editor is rooted at the empty
path, unlike creation with an absent root_path. -/
theorem zep_create_editor_empty_root_cex :
    (zep_create_editor (some []) false).map (fun w => w.editor.rootPath) = some [] ∧
    (zep_create_editor none false).map (fun w => w.editor.rootPath) = some [46] ∧
    (some ([] : Bytes) ≠ some [46]) :=
  ⟨rfl, rfl, by decide⟩

/-- C7: initWithText is a no-op when the handle, name pointer or text pointer
is absent, and a swallowed internal failure during buffer creation leaves the
entire prior handle state — the cached current buffer included — unchanged. -/
theorem zep_init_with_text_noop :
    (∀ n t fail, zep_init_with_text none n t fail = none) ∧
    (∀ w t fail, zep_init_with_text (some w) none t fail = some w) ∧
    (∀ w n fail, zep_init_with_text (some w) (some n) none fail = some w) ∧
    (∀ w n t, zep_init_with_text (some w) (some n) (some t) true = some w) :=
  ⟨fun _ _ _ => rfl, fun _ t _ => by cases t <;> rfl, fun _ _ _ => rfl, fun _ _ _ => rfl⟩

/-- C8: after initWithText with text t on any valid handle, getTextLength
returns exactly the byte length of t (untruncated), and getTextLength returns
0 when the handle or the cached current buffer is absent. -/
theorem zep_get_text_length_contract :
    (∀ w n t, zep_get_text_length (zep_init_with_text (some w) (some n) (some t) false) =
      t.length) ∧
    (zep_get_text_length none = 0) ∧
    (∀ e, zep_get_text_length (some { editor := e, current_buffer := none }) = 0) := by
  refine ⟨?_, rfl, fun _ => rfl⟩
  intro w n t
  simp [zep_init_with_text, editorInitWithText, zep_get_text_length,
    List.getElem?_concat_length]

/-- C9: isVimMode is true immediately after a successful create (Vim is the
default global mode) and after any setVimMode on a valid handle regardless of
prior state; setVimMode is idempotent and a no-op on an invalid handle; and
isVimMode is exactly the comparison of the active global mode's name with the
Vim variant's identity. -/
theorem vim_mode_contract :
    (∀ root, zep_is_vim_mode (zep_create_editor root false) = true) ∧
    (∀ w, zep_is_vim_mode (zep_set_vim_mode (some w)) = true) ∧
    (∀ w, zep_set_vim_mode (zep_set_vim_mode w) = zep_set_vim_mode w) ∧
    (zep_set_vim_mode none = none) ∧
    (∀ w, zep_is_vim_mode (some w) = (w.editor.globalMode == vimStaticName)) := by
  refine ⟨fun _ => rfl, fun _ => rfl, ?_, rfl, fun _ => rfl⟩
  intro w
  cases w with
  | none => rfl
  | some w => rfl

/-- C1: getText returns 0 and writes nothing when the handle, the cached
current buffer or the out-buffer is absent or the capacity is 0; otherwise it
copies exactly min(content length, capacity - 1) content bytes into the
out-buffer followed immediately by one null terminator and returns the number
of content bytes copied (terminator excluded); for capacity 3 and content
"hello" it returns 2 with out bytes 104 101 0, and for capacity greater than
the content length it returns the content length and the copied bytes equal
the content exactly. -/
theorem zep_get_text_contract :
    (∀ outp cap, zep_get_text none outp cap = (0, [])) ∧
    (∀ w cap, zep_get_text w false cap = (0, [])) ∧
    (∀ w outp, zep_get_text w outp 0 = (0, [])) ∧
    (∀ w outp cap, w.current_buffer = none → zep_get_text (some w) outp cap = (0, [])) ∧
    (∀ w id buf cap, w.current_buffer = some id → w.editor.buffers[id]? = some buf →
      cap ≠ 0 →
      zep_get_text (some w) true cap =
        (min buf.content.length (cap - 1),
         buf.content.take (min buf.content.length (cap - 1)) ++ [0])) ∧
    (∀ w id n, w.current_buffer = some id →
      w.editor.buffers[id]? = some { name := n, content := [104, 101, 108, 108, 111] } →
      zep_get_text (some w) true 3 = (2, [104, 101, 0])) ∧
    (∀ w id buf cap, w.current_buffer = some id → w.editor.buffers[id]? = some buf →
      buf.content.length < cap →
      zep_get_text (some w) true cap = (buf.content.length, buf.content ++ [0])) := by
  refine ⟨fun _ _ => rfl, ?_, ?_, ?_, ?_, ?_, ?_⟩
  · intro w cap
    cases w <;> rfl
  · intro w outp
    cases w with
    | none => rfl
    | some w => cases outp <;> simp [zep_get_text]
  · intro w outp cap h
    cases outp <;> cases cap <;> simp [zep_get_text, h]
  · intro w id buf cap hcb hbuf hcap
    simp [zep_get_text, hcb, hbuf, hcap]
  · intro w id n hcb hbuf
    simp [zep_get_text, hcb, hbuf]
  · intro w id buf cap hcb hbuf hlt
    have hmin : min buf.content.length (cap - 1) = buf.content.length := by omega
    have hcap : cap ≠ 0 := by omega
    simp [zep_get_text, hcb, hbuf, hcap, hmin]

/-- C2: the key translation of handleKey is a pure function of the raw
(key, modifiers) pair: keys 1000, 1001, 1002, 1003 map to the Up, Down, Left,
Right sentinels regardless of modifiers and every other key passes through
unchanged as a literal character code; modifier bit 0 maps to Ctrl, bit 1 to
Alt, bit 2 to Shift, bits combine, and bits beyond the low three are ignored
without error; key 5 with modifiers 5 yields literal code 5 with Ctrl and
Shift set and Alt clear. -/
theorem translate_key_event_contract :
    (∀ m, (translateKeyEvent 1000 m).1 = ZepKey.up) ∧
    (∀ m, (translateKeyEvent 1001 m).1 = ZepKey.down) ∧
    (∀ m, (translateKeyEvent 1002 m).1 = ZepKey.left) ∧
    (∀ m, (translateKeyEvent 1003 m).1 = ZepKey.right) ∧
    (∀ k m, k ≠ 1000 → k ≠ 1001 → k ≠ 1002 → k ≠ 1003 →
      (translateKeyEvent k m).1 = ZepKey.char k) ∧
    (∀ k, (translateKeyEvent k 1).2 = { ctrl := true, alt := false, shift := false }) ∧
    (∀ k, (translateKeyEvent k 2).2 = { ctrl := false, alt := true, shift := false }) ∧
    (∀ k, (translateKeyEvent k 4).2 = { ctrl := false, alt := false, shift := true }) ∧
    (∀ k, (translateKeyEvent k 7).2 = { ctrl := true, alt := true, shift := true }) ∧
    (∀ k m, translateKeyEvent k (m % 8) = translateKeyEvent k m) ∧
    (translateKeyEvent 5 5 = (ZepKey.char 5, { ctrl := true, alt := false, shift := true })) := by
  refine ⟨fun _ => rfl, fun _ => rfl, fun _ => rfl, fun _ => rfl, ?_,
    fun _ => rfl, fun _ => rfl, fun _ => rfl, fun _ => rfl, ?_, by decide⟩
  · intro k m h1 h2 h3 h4
    simp [translateKeyEvent, translateKey, h1, h2, h3, h4]
  · intro k m
    have hbit : ∀ i, i < 3 → (m % 8).testBit i = m.testBit i := by
      intro i hi
      rw [show (8 : Nat) = 2 ^ 3 from rfl, Nat.testBit_mod_two_pow]
      simp [hi]
    simp [translateKeyEvent, translateModifiers, hbit 0 (by omega), hbit 1 (by omega),
      hbit 2 (by omega)]

/-- C3: handleKey returns false when the handle is absent, the cached current
buffer is absent, or no mode is resolvable for that buffer; otherwise, once
the translated key event has been delivered to the mode, it returns true —
delivery, not a content change, is what true signals, so a mode that ignores
the key (leaving the editor unchanged) still yields true. -/
theorem zep_handle_key_delivery :
    (∀ d k m, (zep_handle_key d none k m).1 = false) ∧
    (∀ d w k m, w.current_buffer = none → (zep_handle_key d (some w) k m).1 = false) ∧
    (∀ d w k m, w.editor.getMode = none → (zep_handle_key d (some w) k m).1 = false) ∧
    (∀ d w id md e2 k m, w.current_buffer = some id → w.editor.getMode = some md →
      d (translateKey k) (translateModifiers m) w.editor = some e2 →
      (zep_handle_key d (some w) k m).1 = true) ∧
    (∀ w id md k m, w.current_buffer = some id → w.editor.getMode = some md →
      (zep_handle_key (fun _ _ e => some e) (some w) k m).1 = true) := by
  refine ⟨fun _ _ _ => rfl, ?_, ?_, ?_, ?_⟩
  · intro d w k m h
    simp [zep_handle_key, h]
  · intro d w k m h
    cases hcb : w.current_buffer with
    | none => simp [zep_handle_key, hcb]
    | some id => simp [zep_handle_key, hcb, h]
  · intro d w id md e2 k m hcb hm hd
    simp [zep_handle_key, hcb, hm, hd]
  · intro w id md k m hcb hm
    simp [zep_handle_key, hcb, hm]

/-- C4 (amended): when the handle is present and both out-pointers are
non-null, getCursorPosition writes the sentinel (0,0) whenever the cached
current buffer is absent, no active window exists, or the active window does
not target the current buffer; when the handle is absent or an out-pointer is
null the call returns before the zeroing and writes nothing, leaving the
caller's cells unchanged; in every case the call is a total function with no
other effect. -/
theorem zep_get_cursor_position_sentinel :
    (∀ lp cp l0 c0, zep_get_cursor_position none lp cp l0 c0 = (l0, c0)) ∧
    (∀ w cp l0 c0, zep_get_cursor_position w false cp l0 c0 = (l0, c0)) ∧
    (∀ w lp l0 c0, zep_get_cursor_position w lp false l0 c0 = (l0, c0)) ∧
    (∀ w l0 c0, w.current_buffer = none →
      zep_get_cursor_position (some w) true true l0 c0 = (0, 0)) ∧
    (∀ w l0 c0, w.editor.activeWindow = none →
      zep_get_cursor_position (some w) true true l0 c0 = (0, 0)) ∧
    (∀ w window l0 c0, w.editor.activeWindow = some window →
      w.current_buffer ≠ some window.bufferId →
      zep_get_cursor_position (some w) true true l0 c0 = (0, 0)) := by
  refine ⟨fun _ _ _ _ => rfl, ?_, ?_, ?_, ?_, ?_⟩
  · intro w cp l0 c0
    cases w <;> cases cp <;> rfl
  · intro w lp l0 c0
    cases w <;> cases lp <;> rfl
  · intro w l0 c0 h
    simp [zep_get_cursor_position, h]
  · intro w l0 c0 h
    cases hcb : w.current_buffer with
    | none => simp [zep_get_cursor_position, hcb]
    | some id => simp [zep_get_cursor_position, hcb, h]
  · intro w window l0 c0 hwin hne
    cases hcb : w.current_buffer with
    | none => simp [zep_get_cursor_position, hcb]
    | some id =>
      have hid : window.bufferId ≠ id := by
        intro he
        exact hne (by rw [hcb, he])
      simp [zep_get_cursor_position, hcb, hwin, hid]

/-- C4 counterexample: with an absent handle and non-null out-pointers whose
cells hold (7,7), getCursorPosition leaves the cells at (7,7) instead of
writing the claimed (0,0) sentinel. -/
theorem zep_get_cursor_position_absent_handle_cex :
    zep_get_cursor_position none true true 7 7 = (7, 7) ∧
    ((7, 7) : Int × Int) ≠ (0, 0) :=
  ⟨rfl, by decide⟩

/-- C5: when the active window targets the current buffer and its cursor byte
offset o is at most the content length, getCursorPosition writes line =
lineFromOffset(o) and column = o minus that line's begin position (a byte
count from the line's start); the written line index is the valid index i of
the line-start table with lineStart[i] ≤ o, and o < lineStart[i+1] whenever a
further line start exists (the last line extending to the content length
inclusive); an empty buffer resolves to (0,0), and a fresh buffer straight
after create and initWithText, with no key events, yields (0,0). -/
theorem zep_get_cursor_position_resolution :
    (∀ (w : ZepEditorWrapper) (id : Nat) (buf : ZepBuffer) (window : ZepWindow)
        (l0 c0 : Int),
      w.current_buffer = some id →
      w.editor.buffers[id]? = some buf →
      w.editor.activeWindow = some window →
      window.bufferId = id →
      window.cursor ≤ buf.content.length →
      (zep_get_cursor_position (some w) true true l0 c0 =
          ((lineFromOffset (lineStarts buf.content) window.cursor : Int),
           ((window.cursor - linePosBegin (lineStarts buf.content) window.cursor : Nat) :
             Int)) ∧
        linePosBegin (lineStarts buf.content) window.cursor ≤ window.cursor ∧
        lineFromOffset (lineStarts buf.content) window.cursor <
          (lineStarts buf.content).length ∧
        (lineFromOffset (lineStarts buf.content) window.cursor + 1 <
            (lineStarts buf.content).length →
          window.cursor <
            (lineStarts buf.content).getD
              (lineFromOffset (lineStarts buf.content) window.cursor + 1) 0) ∧
        (buf.content = [] →
          zep_get_cursor_position (some w) true true l0 c0 = (0, 0)))) ∧
    (∀ (root : Option Bytes) (n t : Bytes) (l0 c0 : Int),
      zep_get_cursor_position
        (zep_init_with_text (zep_create_editor root false) (some n) (some t) false)
        true true l0 c0 = (0, 0)) := by
  constructor
  · intro w id buf window l0 c0 hcb hbuf hwin htgt hcur
    have hle : linePosBegin (lineStarts buf.content) window.cursor ≤ window.cursor :=
      lineFromOffset_head_le 0 (lineStartsAux buf.content 0) window.cursor
        (Nat.zero_le _)
    refine ⟨?_, hle, ?_, ?_, ?_⟩
    · simp only [zep_get_cursor_position, hcb, hwin, htgt, hbuf, if_true]
      rw [Int.ofNat_sub hle]
    · exact lineFromOffset_lt_length 0 (lineStartsAux buf.content 0) window.cursor
    · exact lineFromOffset_next_gt (lineStarts buf.content) window.cursor
    · intro hnil
      have hc0 : window.cursor = 0 := by
        rw [hnil] at hcur
        simpa using hcur
      simp [zep_get_cursor_position, hcb, hwin, htgt, hbuf, hnil, hc0,
        lineFromOffset_zero, linePosBegin_zero]
  · intro root n t l0 c0
    simp [zep_create_editor, zep_init_with_text, editorInitWithText,
      zep_get_cursor_position, lineFromOffset_zero, linePosBegin_zero]

/-- C10: of the boundary operations getText, getTextLength, setVimMode,
isVimMode, handleKey, display and getCursorPosition, none changes the
handle's cached current-buffer field, whatever the engine's key delivery does
to the editor; initWithText is the one operation that swaps it, setting it to
the newly created buffer. -/
theorem current_buffer_frame :
    (∀ c w, (boundaryStep c w).map (fun v => v.current_buffer) =
      w.map (fun v => v.current_buffer)) ∧
    (∀ w n t, (zep_init_with_text (some w) (some n) (some t) false).map
      (fun v => v.current_buffer) = some (some w.editor.buffers.length)) := by
  constructor
  · intro c w
    cases c with
    | getText _ _ => rfl
    | getTextLength => rfl
    | isVimMode => rfl
    | getCursorPosition _ _ _ _ => rfl
    | setVimMode => cases w <;> rfl
    | display x y wd ht => cases w <;> rfl
    | handleKey d k m =>
      cases w with
      | none => rfl
      | some w =>
        cases hcb : w.current_buffer with
        | none => simp [boundaryStep, zep_handle_key, hcb]
        | some id =>
          cases hm : w.editor.getMode with
          | none => simp [boundaryStep, zep_handle_key, hcb, hm]
          | some md =>
            cases hd : d (translateKey k) (translateModifiers m) w.editor with
            | none => simp [boundaryStep, zep_handle_key, hcb, hm, hd]
            | some e2 => simp [boundaryStep, zep_handle_key, hcb, hm, hd]
  · intro w n t
    rfl

/-- A concrete buffer for witness checks: content "a", newline, "bc". -/
def exampleBuffer : ZepBuffer :=
  { name := [97], content := [97, 10, 98, 99] }

/-- A concrete handle state: one buffer, cached as current, with the active
window targeting it and the cursor at byte offset 3. -/
def exampleWrapper : ZepEditorWrapper :=
  { editor :=
      { rootPath := [46]
        registeredModes := [vimStaticName, standardStaticName]
        globalMode := vimStaticName
        buffers := [exampleBuffer]
        activeWindow := some { bufferId := 0, cursor := 3 }
        region := ((0, 0), (0, 0)) }
    current_buffer := some 0 }

/-- A concrete handle state whose current buffer holds "hello". -/
def helloWrapper : ZepEditorWrapper :=
  { editor :=
      { rootPath := [46]
        registeredModes := [vimStaticName, standardStaticName]
        globalMode := vimStaticName
        buffers := [{ name := [97], content := [104, 101, 108, 108, 111] }]
        activeWindow := some { bufferId := 0, cursor := 0 }
        region := ((0, 0), (0, 0)) }
    current_buffer := some 0 }

/-- A concrete handle state with no cached current buffer. -/
def emptyWrapper : ZepEditorWrapper :=
  { editor :=
      { rootPath := [46]
        registeredModes := [vimStaticName, standardStaticName]
        globalMode := vimStaticName
        buffers := []
        activeWindow := none
        region := ((0, 0), (0, 0)) }
    current_buffer := none }

/-- Witness for C1 at the "hello", capacity-3 scenario: 2 bytes copied, out
buffer holds 104 101 0. -/
theorem zep_get_text_contract_witness :
    helloWrapper.current_buffer = some 0 ∧
    helloWrapper.editor.buffers[0]? =
      some { name := [97], content := [104, 101, 108, 108, 111] } ∧
    zep_get_text (some helloWrapper) true 3 = (2, [104, 101, 0]) :=
  ⟨rfl, rfl, zep_get_text_contract.2.2.2.2.2.1 helloWrapper 0 [97] rfl rfl⟩

/-- Witness for C2 at key 5, modifiers 3: a non-arrow key passes through as a
literal code. -/
theorem translate_key_event_contract_witness :
    (5 : Nat) ≠ 1000 ∧ (translateKeyEvent 5 3).1 = ZepKey.char 5 :=
  ⟨by decide, translate_key_event_contract.2.2.2.2.1 5 3 (by decide) (by decide)
    (by decide) (by decide)⟩

/-- Witness for C3: a mode that ignores the delivered key still yields true. -/
theorem zep_handle_key_delivery_witness :
    exampleWrapper.current_buffer = some 0 ∧
    exampleWrapper.editor.getMode = some vimStaticName ∧
    (zep_handle_key (fun _ _ e => some e) (some exampleWrapper) 120 0).1 = true :=
  ⟨rfl, by decide, zep_handle_key_delivery.2.2.2.2 exampleWrapper 0 vimStaticName 120 0
    rfl (by decide)⟩

/-- Witness for C4: a present handle with no current buffer gets the (0,0)
sentinel written over the prior cell values. -/
theorem zep_get_cursor_position_sentinel_witness :
    emptyWrapper.current_buffer = none ∧
    zep_get_cursor_position (some emptyWrapper) true true 5 6 = (0, 0) :=
  ⟨rfl, zep_get_cursor_position_sentinel.2.2.2.1 emptyWrapper 5 6 rfl⟩

/-- Witness for C5 at content "a", newline, "bc" with the cursor at byte
offset 3: the resolved position is line 1, column 1. -/
theorem zep_get_cursor_position_resolution_witness :
    (exampleWrapper.current_buffer = some 0 ∧
      exampleWrapper.editor.buffers[0]? = some exampleBuffer ∧
      exampleWrapper.editor.activeWindow = some { bufferId := 0, cursor := 3 } ∧
      (3 : Nat) ≤ exampleBuffer.content.length) ∧
    zep_get_cursor_position (some exampleWrapper) true true 7 9 = (1, 1) := by
  refine ⟨⟨rfl, rfl, rfl, by decide⟩, ?_⟩
  have h := (zep_get_cursor_position_resolution.1 exampleWrapper 0 exampleBuffer
    { bufferId := 0, cursor := 3 } 7 9 rfl rfl rfl rfl (by decide)).1
  rw [h]
  decide

end ZepWrapper
